import Mathlib

/-!
Verification of the FastAPI/SQLAlchemy calculator backend.

Numbers are modelled as exact rationals (ℚ): every claim under study is
about exact arithmetic identities, zero tests and control flow, none of
which depends on floating-point rounding.  Python exceptions are modelled
with `Except`: a raised `ZeroDivisionError`/`ValueError` becomes an
`.error` value carrying the same message string.  The relational store is
modelled as a list of rows plus an autoincrement counter.
-/

deriving instance DecidableEq for Except

/-- Errors raised by the arithmetic layer: `ZeroDivisionError` and
`ValueError`, each with the message string the code uses. -/
inductive CalcErr where
  | zeroDivision (msg : String)
  | valueError (msg : String)
deriving Repr, DecidableEq

namespace Ops

/-- `app/operations.py::add`. -/
def add (a b : ℚ) : ℚ := a + b

/-- `app/operations.py::sub`. -/
def sub (a b : ℚ) : ℚ := a - b

/-- `app/operations.py::mul`. -/
def mul (a b : ℚ) : ℚ := a * b

/-- `app/operations.py::div`: raises `ZeroDivisionError("Division by zero")`
when `b == 0`, else returns `a / b`. -/
def div (a b : ℚ) : Except CalcErr ℚ :=
  if b = 0 then .error (.zeroDivision "Division by zero") else .ok (a / b)

/-- `app/operations.py::power` (`a ** b`).  Python raises
`ZeroDivisionError` when the base is zero and the exponent negative; the
successful value is modelled at integer exponents, the only case
expressible in ℚ (a non-integer exponent gives an irrational or complex
float, on whose value no claim under study depends). -/
def power (a b : ℚ) : Except CalcErr ℚ :=
  if a = 0 ∧ b < 0 then
    .error (.zeroDivision "0.0 cannot be raised to a negative power")
  else .ok (if b.den = 1 then a ^ b.num else 0)

/-- `app/operations.py::modulus`: raises
`ZeroDivisionError("Modulus by zero")` when `b == 0`, else returns Python
`a % b`, which is `a - b * floor (a / b)` (floor-division convention). -/
def modulus (a b : ℚ) : Except CalcErr ℚ :=
  if b = 0 then .error (.zeroDivision "Modulus by zero")
  else .ok (a - b * (⌊a / b⌋ : ℤ))

/-- The closed enumeration of operation names accepted by the dispatcher
(`operation_map` keys in `app/operations.py::compute`), which coincides with
the `Literal` enumeration of `schemas.CalculationCreate.type`. -/
def allowedTypes : List String :=
  ["Add", "Sub", "Multiply", "Divide", "Power", "Modulus"]

/-- `app/operations.py::compute`: dictionary dispatch on the operation name;
unknown names raise `ValueError(f"Invalid operation type: {t}")`. -/
def compute (a b : ℚ) (t : String) : Except CalcErr ℚ :=
  if t = "Add" then .ok (add a b)
  else if t = "Sub" then .ok (sub a b)
  else if t = "Multiply" then .ok (mul a b)
  else if t = "Divide" then div a b
  else if t = "Power" then power a b
  else if t = "Modulus" then modulus a b
  else .error (.valueError ("Invalid operation type: " ++ t))

/-- Unfolding: dispatch at the name `Add`. -/
theorem compute_add (a b : ℚ) : compute a b "Add" = .ok (a + b) := by
  rw [compute, if_pos rfl]; rfl

/-- Unfolding: dispatch at the name `Sub`. -/
theorem compute_sub (a b : ℚ) : compute a b "Sub" = .ok (a - b) := by
  rw [compute, if_neg (by decide), if_pos rfl]; rfl

/-- Unfolding: dispatch at the name `Multiply`. -/
theorem compute_mul (a b : ℚ) : compute a b "Multiply" = .ok (a * b) := by
  rw [compute, if_neg (by decide), if_neg (by decide), if_pos rfl]; rfl

/-- Unfolding: dispatch at the name `Divide`. -/
theorem compute_div (a b : ℚ) : compute a b "Divide" = div a b := by
  rw [compute, if_neg (by decide), if_neg (by decide), if_neg (by decide), if_pos rfl]

/-- Unfolding: dispatch at the name `Power`. -/
theorem compute_power (a b : ℚ) : compute a b "Power" = power a b := by
  rw [compute, if_neg (by decide), if_neg (by decide), if_neg (by decide),
    if_neg (by decide), if_pos rfl]

/-- Unfolding: dispatch at the name `Modulus`. -/
theorem compute_modulus (a b : ℚ) : compute a b "Modulus" = modulus a b := by
  rw [compute, if_neg (by decide), if_neg (by decide), if_neg (by decide),
    if_neg (by decide), if_neg (by decide), if_pos rfl]

/-- Unfolding: a name outside the closed enumeration falls through to the
`ValueError` branch. -/
theorem compute_unknown (a b : ℚ) (t : String) (h : t ∉ allowedTypes) :
    compute a b t = .error (.valueError ("Invalid operation type: " ++ t)) := by
  simp only [allowedTypes, List.mem_cons, List.not_mem_nil, or_false, not_or] at h
  obtain ⟨h1, h2, h3, h4, h5, h6⟩ := h
  rw [compute, if_neg h1, if_neg h2, if_neg h3, if_neg h4, if_neg h5, if_neg h6]

end Ops

/-- `app/factory.py::OperationFactory.create(t)` followed by
`.compute(a, b)` on the returned instance.  The factory dictionary knows
only `Add`, `Sub`, `Multiply`, `Divide`; anything else raises
`ValueError(f"Unsupported operation type: {t}")`, and `DivideOperation`
raises `ZeroDivisionError("Division by zero is not allowed")` on `b == 0`. -/
def factoryCompute (t : String) (a b : ℚ) : Except CalcErr ℚ :=
  if t = "Add" then .ok (a + b)
  else if t = "Sub" then .ok (a - b)
  else if t = "Multiply" then .ok (a * b)
  else if t = "Divide" then
    if b = 0 then .error (.zeroDivision "Division by zero is not allowed")
    else .ok (a / b)
  else .error (.valueError ("Unsupported operation type: " ++ t))

/-- A row of the `calculations` table (`app/models.py::Calculation`). -/
structure Calculation where
  id : Nat
  a : ℚ
  b : ℚ
  type : String
  result : ℚ
  user_id : Option Nat
deriving Repr, DecidableEq

/-- The field values `app/models.py::Calculation.__init__` assigns, before
the row gets a database identifier. -/
structure CalcFields where
  a : ℚ
  b : ℚ
  type : String
  result : ℚ
  user_id : Option Nat
deriving Repr, DecidableEq

/-- `app/models.py::Calculation.__init__`: stores the operands and type;
when no explicit `result` is supplied it computes one through
`OperationFactory` (which can raise), otherwise it stores the supplied
value unchecked. -/
def calculationInit (a b : ℚ) (t : String) (result : Option ℚ)
    (user_id : Option Nat) : Except CalcErr CalcFields :=
  match result with
  | none => do
      let r ← factoryCompute t a b
      .ok ⟨a, b, t, r, user_id⟩
  | some r => .ok ⟨a, b, t, r, user_id⟩

/-- A validated `app/schemas.py::CalculationCreate` payload. -/
structure CalculationCreate where
  a : ℚ
  b : ℚ
  type : String
deriving Repr, DecidableEq

/-- `app/schemas.py::CalculationCreate` validation: the `Literal` annotation
restricts `type` to the closed enumeration, then the model validator
rejects `Divide`/`Modulus` with a zero second operand, each with its own
message. -/
def validateCalculationCreate (a b : ℚ) (t : String) :
    Except String CalculationCreate :=
  if t ∈ Ops.allowedTypes then
    if t = "Divide" ∧ b = 0 then .error "Division by zero is not allowed"
    else if t = "Modulus" ∧ b = 0 then .error "Modulus by zero is not allowed"
    else .ok ⟨a, b, t⟩
  else .error ("Input should be one of: " ++ String.intercalate ", " Ops.allowedTypes)

/-- The `calculations` table together with its autoincrement counter. -/
structure DB where
  calcs : List Calculation
  nextId : Nat
deriving Repr, DecidableEq

/-- `app/crud.py::get_calculation`: first row whose primary key matches. -/
def get_calculation (db : DB) (calculation_id : Nat) : Option Calculation :=
  db.calcs.find? (fun c => c.id == calculation_id)

/-- `app/crud.py::create_calculation`: computes the result with
`operations.compute`, then constructs the row through
`Calculation.__init__` with the explicit precomputed result, assigns the
next identifier and inserts it. -/
def create_calculation (db : DB) (calc_in : CalculationCreate)
    (user_id : Option Nat) : Except CalcErr (Calculation × DB) := do
  let result ← Ops.compute calc_in.a calc_in.b calc_in.type
  let fields ← calculationInit calc_in.a calc_in.b calc_in.type (some result) user_id
  let c : Calculation :=
    ⟨db.nextId, fields.a, fields.b, fields.type, fields.result, fields.user_id⟩
  .ok (c, ⟨db.calcs ++ [c], db.nextId + 1⟩)

/-- `app/crud.py::list_user_calculations`: filter by owner, then apply the
pagination window (`offset skip`, `limit`). -/
def list_user_calculations (db : DB) (user_id : Nat) (skip limit : Nat) :
    List Calculation :=
  (((db.calcs.filter (fun c => c.user_id == some user_id)).drop skip).take limit)

/-- `app/crud.py::update_calculation`: `None` when the row is absent,
otherwise recompute the result from the new input and mutate the row in
place. -/
def update_calculation (db : DB) (calculation_id : Nat)
    (calc_in : CalculationCreate) : Except CalcErr (Option (Calculation × DB)) :=
  match get_calculation db calculation_id with
  | none => .ok none
  | some c => do
      let result ← Ops.compute calc_in.a calc_in.b calc_in.type
      let c' : Calculation :=
        { c with a := calc_in.a, b := calc_in.b, type := calc_in.type, result := result }
      .ok (some (c', ⟨db.calcs.map (fun x => if x.id == calculation_id then c' else x),
        db.nextId⟩))

/-- `app/crud.py::delete_calculation`: `false` and an untouched store when
the row is absent, else remove the row and report `true`. -/
def delete_calculation (db : DB) (calculation_id : Nat) : Bool × DB :=
  match get_calculation db calculation_id with
  | none => (false, db)
  | some _ => (true, ⟨db.calcs.filter (fun c => ¬ (c.id == calculation_id)), db.nextId⟩)

/-- An HTTP error response: status code and detail string. -/
structure HTTPErr where
  status : Nat
  detail : String
deriving Repr, DecidableEq

/-- `app/routes_calculations.py::read_calculation`: 404 when the row is
absent or its owner differs from the authenticated user. -/
def read_calculation (db : DB) (current_user_id : Nat) (calculation_id : Nat) :
    Except HTTPErr Calculation :=
  match get_calculation db calculation_id with
  | none => .error ⟨404, "Calculation not found"⟩
  | some c =>
      if c.user_id == some current_user_id then .ok c
      else .error ⟨404, "Calculation not found"⟩

/-- ASCII lower-casing of one character, as Python `str.lower()` acts on
the ASCII operation names sent to `/calc`. -/
def lowerChar (c : Char) : Char :=
  if 'A' ≤ c ∧ c ≤ 'Z' then Char.ofNat (c.toNat + 32) else c

/-- Python `op.lower()` restricted to ASCII strings: lower-case every
character. -/
def pyLower (s : String) : String := ⟨s.data.map lowerChar⟩

/-- The dispatch step of `app/main.py::calc`, the legacy `/calc` endpoint:
looks the (already lower-cased) name up in the four-entry `funcs`
dictionary, turns an unknown name into a 400 `Unsupported operation` and a
`ZeroDivisionError` raised by `div` into a 400 with the exception's
message. -/
def calcDispatch (op : String) (a b : ℚ) : Except HTTPErr (String × ℚ) :=
  if op = "add" then .ok (op, a + b)
  else if op = "sub" then .ok (op, a - b)
  else if op = "mul" then .ok (op, a * b)
  else if op = "div" then
    if b = 0 then .error ⟨400, "Division by zero"⟩ else .ok (op, a / b)
  else .error ⟨400, "Unsupported operation"⟩

/-- `app/main.py::calc`: the endpoint body first lower-cases `op`, then
dispatches. -/
def calcEndpoint (op : String) (a b : ℚ) : Except HTTPErr (String × ℚ) :=
  calcDispatch (pyLower op) a b

/-- C2: `compute` succeeds for `Add`, `Sub`, `Multiply`; it fails on
`Divide` exactly when `b = 0` and on `Modulus` exactly when `b = 0`; and
for a name outside the closed enumeration it fails with the
unsupported-operation `ValueError`.  Determinism is immediate: `compute`
is a pure function of its arguments. -/
theorem claim_C2 (a b : ℚ) (t : String) :
    ((t = "Add" ∨ t = "Sub" ∨ t = "Multiply") → ∃ r, Ops.compute a b t = .ok r) ∧
    ((∃ e, Ops.compute a b "Divide" = .error e) ↔ b = 0) ∧
    ((∃ e, Ops.compute a b "Modulus" = .error e) ↔ b = 0) ∧
    (t ∉ Ops.allowedTypes →
      Ops.compute a b t = .error (.valueError ("Invalid operation type: " ++ t))) := by
  refine ⟨?_, ?_, ?_, Ops.compute_unknown a b t⟩
  · rintro (rfl | rfl | rfl)
    · exact ⟨_, Ops.compute_add a b⟩
    · exact ⟨_, Ops.compute_sub a b⟩
    · exact ⟨_, Ops.compute_mul a b⟩
  · rw [Ops.compute_div, Ops.div]
    by_cases hb : b = 0 <;> simp [hb]
  · rw [Ops.compute_modulus, Ops.modulus]
    by_cases hb : b = 0 <;> simp [hb]

/-- Witness for C2 at concrete inputs. -/
theorem claim_C2_witness :
    (∃ r, Ops.compute 2 3 "Add" = .ok r) ∧
    Ops.compute 2 3 "Foo" = .error (.valueError ("Invalid operation type: " ++ "Foo")) :=
  ⟨(claim_C2 2 3 "Add").1 (Or.inl rfl), (claim_C2 2 3 "Foo").2.2.2 (by decide)⟩

/-- C3 fails as stated: Python's `%` (hence `modulus`) follows the sign of
the divisor, not the dividend.  At `a = -7`, `b = 3` the dividend is
negative but the result `2` is positive. -/
theorem claim_C3_counterexample :
    Ops.modulus (-7) 3 = .ok 2 ∧ (-7 : ℚ) < 0 ∧ (0 : ℚ) < 2 := by
  refine ⟨?_, by norm_num, by norm_num⟩
  rw [Ops.modulus, if_neg (by norm_num)]
  have h : (⌊(-7 : ℚ) / 3⌋ : ℤ) = -3 := by norm_num [Int.floor_eq_iff]
  rw [h]
  norm_num

/-- C3 amended: for a non-zero divisor, `modulus a b` is
`a - b * ⌊a / b⌋` (the floor-division convention), whose sign follows the
DIVISOR `b`: it lies in `[0, b)` when `b > 0` and in `(b, 0]` when
`b < 0`. -/
theorem claim_C3_amended (a b : ℚ) (hb : b ≠ 0) :
    Ops.modulus a b = .ok (a - b * (⌊a / b⌋ : ℤ)) ∧
    (0 < b → 0 ≤ a - b * (⌊a / b⌋ : ℤ) ∧ a - b * (⌊a / b⌋ : ℤ) < b) ∧
    (b < 0 → b < a - b * (⌊a / b⌋ : ℤ) ∧ a - b * (⌊a / b⌋ : ℤ) ≤ 0) := by
  have key : a - b * (⌊a / b⌋ : ℤ) = b * Int.fract (a / b) := by
    rw [Int.fract, mul_sub, mul_div_cancel₀ a hb]
  refine ⟨by rw [Ops.modulus, if_neg hb], ?_, ?_⟩
  · intro hpos
    rw [key]
    constructor
    · exact mul_nonneg hpos.le (Int.fract_nonneg _)
    · calc b * Int.fract (a / b) < b * 1 :=
            (mul_lt_mul_left hpos).mpr (Int.fract_lt_one _)
        _ = b := mul_one b
  · intro hneg
    rw [key]
    constructor
    · calc b = b * 1 := (mul_one b).symm
        _ < b * Int.fract (a / b) :=
            (mul_lt_mul_left_of_neg hneg).mpr (Int.fract_lt_one _)
    · exact mul_nonpos_of_nonpos_of_nonneg hneg.le (Int.fract_nonneg _)

/-- C7: deleting an absent id returns `false` and leaves the store
untouched, so a second delete of the same id also returns `false`; the
function is total, so no error can be raised. -/
theorem claim_C7 (db : DB) (cid : Nat) (h : get_calculation db cid = none) :
    delete_calculation db cid = (false, db) ∧
    delete_calculation (delete_calculation db cid).2 cid = (false, db) := by
  have h1 : delete_calculation db cid = (false, db) := by
    rw [delete_calculation, h]
  refine ⟨h1, ?_⟩
  rw [h1]
  exact h1

/-- Witness for C7: the empty store has no row with id 1. -/
theorem claim_C7_witness :
    delete_calculation ⟨[], 1⟩ 1 = (false, ⟨[], 1⟩) ∧
    delete_calculation (delete_calculation ⟨[], 1⟩ 1).2 1 = (false, ⟨[], 1⟩) :=
  claim_C7 ⟨[], 1⟩ 1 rfl

/-- C8: the schema validator rejects `Divide`/`Modulus` with a zero second
operand, with a distinct message for each; any type of the closed
enumeration whose zero-divisor rule is respected passes the check. -/
theorem claim_C8 (a b : ℚ) (t : String) :
    validateCalculationCreate a 0 "Divide" = .error "Division by zero is not allowed" ∧
    validateCalculationCreate a 0 "Modulus" = .error "Modulus by zero is not allowed" ∧
    "Division by zero is not allowed" ≠ "Modulus by zero is not allowed" ∧
    (t ∈ Ops.allowedTypes → ((t = "Divide" ∨ t = "Modulus") → b ≠ 0) →
      validateCalculationCreate a b t = .ok ⟨a, b, t⟩) := by
  refine ⟨?_, ?_, by decide, ?_⟩
  · rw [validateCalculationCreate, if_pos (by decide), if_pos ⟨rfl, rfl⟩]
  · rw [validateCalculationCreate, if_pos (by decide),
      if_neg (by rintro ⟨h, -⟩; exact absurd h (by decide)), if_pos ⟨rfl, rfl⟩]
  · intro hmem hz
    simp only [Ops.allowedTypes, List.mem_cons, List.not_mem_nil, or_false] at hmem
    have hdiv : ¬(t = "Divide" ∧ b = 0) := by
      rintro ⟨ht, hb0⟩; exact hz (Or.inl ht) hb0
    have hmod : ¬(t = "Modulus" ∧ b = 0) := by
      rintro ⟨ht, hb0⟩; exact hz (Or.inr ht) hb0
    have hmem' : t ∈ Ops.allowedTypes := by
      simp only [Ops.allowedTypes, List.mem_cons, List.not_mem_nil, or_false]
      exact hmem
    rw [validateCalculationCreate, if_pos hmem', if_neg hdiv, if_neg hmod]

/-- Witness for C8: `Divide` with a non-zero divisor passes the check. -/
theorem claim_C8_witness :
    validateCalculationCreate 1 2 "Divide" = .ok ⟨1, 2, "Divide"⟩ :=
  (claim_C8 1 2 "Divide").2.2.2 (by decide) (fun _ => by norm_num)

/-- The factory dictionary has no `Power` entry. -/
theorem factoryCompute_power_err (a b : ℚ) :
    factoryCompute "Power" a b =
      .error (.valueError "Unsupported operation type: Power") := by
  rw [factoryCompute, if_neg (by decide), if_neg (by decide), if_neg (by decide),
    if_neg (by decide)]
  rfl

/-- The factory dictionary has no `Modulus` entry. -/
theorem factoryCompute_modulus_err (a b : ℚ) :
    factoryCompute "Modulus" a b =
      .error (.valueError "Unsupported operation type: Modulus") := by
  rw [factoryCompute, if_neg (by decide), if_neg (by decide), if_neg (by decide),
    if_neg (by decide)]
  rfl

/-- With no explicit result, `Calculation.__init__` defers to the factory. -/
theorem calculationInit_none (a b : ℚ) (t : String) (uid : Option Nat) :
    calculationInit a b t none uid =
      (factoryCompute t a b).bind (fun r => .ok ⟨a, b, t, r, uid⟩) := rfl

/-- C9: constructing a `Calculation` with type `Power` or `Modulus` and no
explicit precomputed result raises the factory's unsupported-operation
`ValueError`, although the dispatcher `compute` itself recognises both
names: it succeeds on `Power` whenever Python would (everywhere outside
the zero-base, negative-exponent domain error) and on `Modulus` whenever
the divisor is non-zero. -/
theorem claim_C9 (a b : ℚ) (uid : Option Nat) :
    calculationInit a b "Power" none uid =
      .error (.valueError "Unsupported operation type: Power") ∧
    calculationInit a b "Modulus" none uid =
      .error (.valueError "Unsupported operation type: Modulus") ∧
    (¬(a = 0 ∧ b < 0) → ∃ r, Ops.compute a b "Power" = .ok r) ∧
    (b ≠ 0 → ∃ r, Ops.compute a b "Modulus" = .ok r) := by
  refine ⟨?_, ?_, ?_, ?_⟩
  · rw [calculationInit_none, factoryCompute_power_err]
    rfl
  · rw [calculationInit_none, factoryCompute_modulus_err]
    rfl
  · intro h
    rw [Ops.compute_power, Ops.power, if_neg h]
    exact ⟨_, rfl⟩
  · intro hb
    rw [Ops.compute_modulus, Ops.modulus, if_neg hb]
    exact ⟨_, rfl⟩

/-- Witness for C9 at `a = 7`, `b = 3`. -/
theorem claim_C9_witness :
    calculationInit 7 3 "Power" none none =
      .error (.valueError "Unsupported operation type: Power") ∧
    calculationInit 7 3 "Modulus" none none =
      .error (.valueError "Unsupported operation type: Modulus") ∧
    (∃ r, Ops.compute 7 3 "Power" = .ok r) ∧
    (∃ r, Ops.compute 7 3 "Modulus" = .ok r) :=
  ⟨(claim_C9 7 3 none).1, (claim_C9 7 3 none).2.1,
    (claim_C9 7 3 none).2.2.1 (by norm_num),
    (claim_C9 7 3 none).2.2.2 (by norm_num)⟩

/-- C10: the legacy `/calc` endpoint lower-cases the operation name and
then dispatches: any spelling whose lowercase form is `add`, `sub`, `mul`
or `div` reaches the corresponding operation, and every other name is a
400 `Unsupported operation`. -/
theorem claim_C10 (op : String) (a b : ℚ) :
    (pyLower op = "add" → calcEndpoint op a b = .ok ("add", a + b)) ∧
    (pyLower op = "sub" → calcEndpoint op a b = .ok ("sub", a - b)) ∧
    (pyLower op = "mul" → calcEndpoint op a b = .ok ("mul", a * b)) ∧
    (pyLower op = "div" → b ≠ 0 → calcEndpoint op a b = .ok ("div", a / b)) ∧
    (pyLower op = "div" → b = 0 →
      calcEndpoint op a b = .error ⟨400, "Division by zero"⟩) ∧
    (pyLower op ∉ (["add", "sub", "mul", "div"] : List String) →
      calcEndpoint op a b = .error ⟨400, "Unsupported operation"⟩) := by
  refine ⟨?_, ?_, ?_, ?_, ?_, ?_⟩
  · intro h
    rw [calcEndpoint, h, calcDispatch, if_pos rfl]
  · intro h
    rw [calcEndpoint, h, calcDispatch, if_neg (by decide), if_pos rfl]
  · intro h
    rw [calcEndpoint, h, calcDispatch, if_neg (by decide), if_neg (by decide),
      if_pos rfl]
  · intro h hb
    rw [calcEndpoint, h, calcDispatch, if_neg (by decide), if_neg (by decide),
      if_neg (by decide), if_pos rfl, if_neg hb]
  · intro h hb
    rw [calcEndpoint, h, calcDispatch, if_neg (by decide), if_neg (by decide),
      if_neg (by decide), if_pos rfl, if_pos hb]
  · intro h
    simp only [List.mem_cons, List.not_mem_nil, or_false, not_or] at h
    obtain ⟨h1, h2, h3, h4⟩ := h
    rw [calcEndpoint, calcDispatch, if_neg h1, if_neg h2, if_neg h3, if_neg h4]

/-- Witness for C10: `ADD` behaves as `add`; `pow` is unsupported. -/
theorem claim_C10_witness :
    calcEndpoint "ADD" 2 3 = .ok ("add", 2 + 3) ∧
    calcEndpoint "pow" 2 3 = .error ⟨400, "Unsupported operation"⟩ :=
  ⟨(claim_C10 "ADD" 2 3).1 (by decide), (claim_C10 "pow" 2 3).2.2.2.2.2 (by decide)⟩

/-- `find?` skips a prefix in which nothing matches. -/
theorem find?_append_none {α : Type} (p : α → Bool) {l₁ : List α} (l₂ : List α)
    (h : l₁.find? p = none) : (l₁ ++ l₂).find? p = l₂.find? p := by
  induction l₁ with
  | nil => rfl
  | cons x xs ih =>
    by_cases hx : p x = true
    · rw [List.find?_cons_of_pos _ hx] at h
      exact absurd h (by simp)
    · rw [List.find?_cons_of_neg _ hx] at h
      rw [List.cons_append, List.find?_cons_of_neg _ hx]
      exact ih h

/-- Replacing every row matching the key by `c'` makes `find?` on that key
return `c'`, provided some row matched before. -/
theorem find?_map_ite (l : List Calculation) (i : Nat) (c c' : Calculation)
    (h : l.find? (fun x => x.id == i) = some c) (hc' : (c'.id == i) = true) :
    (l.map (fun x => if x.id == i then c' else x)).find? (fun x => x.id == i) =
      some c' := by
  induction l with
  | nil => simp at h
  | cons x xs ih =>
    rw [List.map_cons]
    by_cases hx : (x.id == i) = true
    · rw [if_pos hx]
      exact List.find?_cons_of_pos _ hc'
    · have hh : (x :: xs).find? (fun v => v.id == i) = xs.find? (fun v => v.id == i) :=
        List.find?_cons_of_neg _ hx
      rw [hh] at h
      have hstep : ((x :: xs.map (fun v => if v.id == i then c' else v)).find?
          (fun v => v.id == i)) =
          ((xs.map (fun v => if v.id == i then c' else v)).find? (fun v => v.id == i)) :=
        List.find?_cons_of_neg _ hx
      rw [if_neg hx, hstep]
      exact ih h

/-- Evaluation of `create_calculation` when the dispatcher succeeds. -/
theorem create_calculation_ok (db : DB) (cin : CalculationCreate)
    (uid : Option Nat) (r : ℚ) (hr : Ops.compute cin.a cin.b cin.type = .ok r) :
    create_calculation db cin uid =
      .ok (⟨db.nextId, cin.a, cin.b, cin.type, r, uid⟩,
        ⟨db.calcs ++ [⟨db.nextId, cin.a, cin.b, cin.type, r, uid⟩], db.nextId + 1⟩) := by
  rw [create_calculation, hr]
  rfl

/-- Evaluation of `update_calculation` when the row exists and the
dispatcher succeeds. -/
theorem update_calculation_ok (db : DB) (i : Nat) (c : Calculation)
    (cin : CalculationCreate) (r : ℚ)
    (hget : get_calculation db i = some c)
    (hr : Ops.compute cin.a cin.b cin.type = .ok r) :
    update_calculation db i cin =
      .ok (some ({ c with a := cin.a, b := cin.b, type := cin.type, result := r },
        ⟨db.calcs.map (fun x => if x.id == i then
          { c with a := cin.a, b := cin.b, type := cin.type, result := r } else x),
          db.nextId⟩)) := by
  rw [update_calculation, hget, hr]
  rfl

/-- Evaluation of `Calculation.__init__` with an explicit result. -/
theorem calculationInit_some (a b : ℚ) (t : String) (r : ℚ) (uid : Option Nat) :
    calculationInit a b t (some r) uid = .ok ⟨a, b, t, r, uid⟩ := rfl

/-- C1: a row produced by `create_calculation` or `update_calculation`
always stores the dispatcher's output for its own operands and type; only
the constructor escape hatch (an explicit precomputed `result`) stores a
value unchecked. -/
theorem claim_C1 (db : DB) (cin : CalculationCreate) (uid : Option Nat) :
    (∀ c db', create_calculation db cin uid = .ok (c, db') →
      Ops.compute c.a c.b c.type = .ok c.result) ∧
    (∀ i c db', update_calculation db i cin = .ok (some (c, db')) →
      Ops.compute c.a c.b c.type = .ok c.result) ∧
    (∀ a b t r f, calculationInit a b t (some r) uid = .ok f → f.result = r) := by
  refine ⟨?_, ?_, ?_⟩
  · intro c db' h
    cases hr : Ops.compute cin.a cin.b cin.type with
    | error e =>
      rw [create_calculation, hr] at h
      exact Except.noConfusion h
    | ok r =>
      rw [create_calculation_ok db cin uid r hr] at h
      simp only [Except.ok.injEq, Prod.mk.injEq] at h
      obtain ⟨hc, -⟩ := h
      rw [← hc]
      exact hr
  · intro i c db' h
    cases hget : get_calculation db i with
    | none =>
      rw [update_calculation, hget] at h
      exact Option.noConfusion (Except.ok.inj h)
    | some c0 =>
      cases hr : Ops.compute cin.a cin.b cin.type with
      | error e =>
        rw [update_calculation, hget, hr] at h
        exact Except.noConfusion h
      | ok r =>
        rw [update_calculation_ok db i c0 cin r hget hr] at h
        simp only [Except.ok.injEq, Option.some.injEq, Prod.mk.injEq] at h
        obtain ⟨hc, -⟩ := h
        rw [← hc]
        exact hr
  · intro a b t r f h
    rw [calculationInit_some] at h
    rw [← Except.ok.inj h]

/-- Witness for C1: create `(2, 3, Add)` on an empty store. -/
theorem claim_C1_witness :
    ∃ c : Calculation, ∃ db' : DB,
      create_calculation ⟨[], 1⟩ ⟨2, 3, "Add"⟩ none = .ok (c, db') ∧
      Ops.compute c.a c.b c.type = .ok c.result := by
  have hr : Ops.compute (2 : ℚ) 3 "Add" = .ok 5 := by
    rw [Ops.compute_add]; norm_num
  have hcr := create_calculation_ok ⟨[], 1⟩ ⟨2, 3, "Add"⟩ none 5 hr
  exact ⟨_, _, hcr, (claim_C1 ⟨[], 1⟩ ⟨2, 3, "Add"⟩ none).1 _ _ hcr⟩

/-- C4: updating an existing row replaces its operands and type and stores
the dispatcher's result for the new values; the updated row is what a
subsequent fetch by the same id returns. -/
theorem claim_C4 (db : DB) (i : Nat) (c : Calculation) (cin : CalculationCreate)
    (r : ℚ) (hget : get_calculation db i = some c)
    (hr : Ops.compute cin.a cin.b cin.type = .ok r) :
    ∃ c' db', update_calculation db i cin = .ok (some (c', db')) ∧
      c'.id = c.id ∧ c'.a = cin.a ∧ c'.b = cin.b ∧ c'.type = cin.type ∧
      c'.result = r ∧ get_calculation db' i = some c' := by
  have hget' : db.calcs.find? (fun x => x.id == i) = some c := hget
  have hcid := List.find?_some hget'
  refine ⟨_, _, update_calculation_ok db i c cin r hget hr,
    rfl, rfl, rfl, rfl, rfl, ?_⟩
  exact find?_map_ite db.calcs i c _ hget' hcid

/-- Witness for C4: the record `(10, 5, Add, 15)` updated to
`(10, 5, Multiply)` stores result `50`. -/
theorem claim_C4_witness :
    ∃ c' db',
      update_calculation ⟨[⟨1, 10, 5, "Add", 15, none⟩], 2⟩ 1 ⟨10, 5, "Multiply"⟩ =
        .ok (some (c', db')) ∧
      c'.type = "Multiply" ∧ c'.result = 50 ∧ get_calculation db' 1 = some c' := by
  have hr : Ops.compute (10 : ℚ) 5 "Multiply" = .ok 50 := by
    rw [Ops.compute_mul]; norm_num
  have hget : get_calculation ⟨[⟨1, 10, 5, "Add", 15, none⟩], 2⟩ 1 =
      some ⟨1, 10, 5, "Add", 15, none⟩ := rfl
  obtain ⟨c', db', h1, -, -, -, h5, h6, h7⟩ :=
    claim_C4 ⟨[⟨1, 10, 5, "Add", 15, none⟩], 2⟩ 1 ⟨1, 10, 5, "Add", 15, none⟩
      ⟨10, 5, "Multiply"⟩ 50 hget hr
  exact ⟨c', db', h1, h5, h6, h7⟩

/-- C5: creating a calculation from a valid input stores exactly the
submitted operands, type and owner with the computed result, under a fresh
id, and reading that id back returns the very same row. -/
theorem claim_C5 (db : DB) (cin : CalculationCreate) (uid : Option Nat) (r : ℚ)
    (hWF : ∀ x ∈ db.calcs, x.id < db.nextId)
    (hr : Ops.compute cin.a cin.b cin.type = .ok r) :
    ∃ c db', create_calculation db cin uid = .ok (c, db') ∧
      c.id = db.nextId ∧ c.a = cin.a ∧ c.b = cin.b ∧ c.type = cin.type ∧
      c.result = r ∧ c.user_id = uid ∧ get_calculation db' c.id = some c := by
  refine ⟨_, _, create_calculation_ok db cin uid r hr,
    rfl, rfl, rfl, rfl, rfl, rfl, ?_⟩
  have hnone : db.calcs.find? (fun x => x.id == db.nextId) = none := by
    rw [List.find?_eq_none]
    intro x hx
    simp only [beq_iff_eq]
    exact Nat.ne_of_lt (hWF x hx)
  show ((db.calcs ++ [(⟨db.nextId, cin.a, cin.b, cin.type, r, uid⟩ : Calculation)]).find?
      (fun x => x.id == db.nextId)) =
    some (⟨db.nextId, cin.a, cin.b, cin.type, r, uid⟩ : Calculation)
  rw [find?_append_none _ _ hnone]
  exact List.find?_cons_of_pos _ (by simp)

/-- Witness for C5: create `(20, 4, Divide)` on an empty store; the stored
result is `5` and the fetch returns the row. -/
theorem claim_C5_witness :
    ∃ c db', create_calculation ⟨[], 1⟩ ⟨20, 4, "Divide"⟩ none = .ok (c, db') ∧
      c.result = 5 ∧ get_calculation db' c.id = some c := by
  have hr : Ops.compute (20 : ℚ) 4 "Divide" = .ok 5 := by
    rw [Ops.compute_div, Ops.div, if_neg (by norm_num)]
    norm_num
  obtain ⟨c, db', h1, -, -, -, -, h6, -, h8⟩ :=
    claim_C5 ⟨[], 1⟩ ⟨20, 4, "Divide"⟩ none 5
      (fun x hx => absurd hx (List.not_mem_nil x)) hr
  exact ⟨c, db', h1, h6, h8⟩

/-- C6: a calculation owned by user `A` is invisible to a distinct user
`B`: it never appears in `B`'s list of own calculations, and `B`'s direct
fetch through the authenticated read endpoint is a 404. -/
theorem claim_C6 (db : DB) (c : Calculation) (cid A B skip limit : Nat)
    (hget : get_calculation db cid = some c) (hown : c.user_id = some A)
    (hne : B ≠ A) :
    c ∉ list_user_calculations db B skip limit ∧
    read_calculation db B cid = .error ⟨404, "Calculation not found"⟩ := by
  constructor
  · intro hmem
    rw [list_user_calculations] at hmem
    have h1 := List.drop_subset skip _ (List.take_subset limit _ hmem)
    have h2 := (List.mem_filter.mp h1).2
    rw [hown] at h2
    exact hne ((Option.some.inj (beq_iff_eq.mp h2)).symm)
  · rw [read_calculation, hget]
    show (if (c.user_id == some B) = true then Except.ok c
        else Except.error (⟨404, "Calculation not found"⟩ : HTTPErr)) =
      Except.error (⟨404, "Calculation not found"⟩ : HTTPErr)
    have hfalse : ¬((c.user_id == some B) = true) := by
      rw [hown]
      intro hcontr
      exact hne (Option.some.inj (beq_iff_eq.mp hcontr)).symm
    rw [if_neg hfalse]

/-- Witness for C6: user 2 neither lists nor fetches user 1's row. -/
theorem claim_C6_witness :
    (⟨1, 2, 3, "Add", 5, some 1⟩ : Calculation) ∉
      list_user_calculations ⟨[⟨1, 2, 3, "Add", 5, some 1⟩], 2⟩ 2 0 100 ∧
    read_calculation ⟨[⟨1, 2, 3, "Add", 5, some 1⟩], 2⟩ 2 1 =
      .error ⟨404, "Calculation not found"⟩ :=
  claim_C6 ⟨[⟨1, 2, 3, "Add", 5, some 1⟩], 2⟩ ⟨1, 2, 3, "Add", 5, some 1⟩
    1 1 2 0 100 rfl rfl (by decide)

/-- Witness for the amended C3 at `a = -7`, `b = 3`. -/
theorem claim_C3_amended_witness :
    Ops.modulus (-7) 3 = .ok ((-7 : ℚ) - 3 * ((⌊(-7 : ℚ) / 3⌋ : ℤ) : ℚ)) ∧
    (0 ≤ (-7 : ℚ) - 3 * ((⌊(-7 : ℚ) / 3⌋ : ℤ) : ℚ) ∧
      (-7 : ℚ) - 3 * ((⌊(-7 : ℚ) / 3⌋ : ℤ) : ℚ) < 3) :=
  ⟨(claim_C3_amended (-7) 3 (by norm_num)).1,
    (claim_C3_amended (-7) 3 (by norm_num)).2.1 (by norm_num)⟩
